import Mathlib

/-!
Verification of the movement bridge orchestration core and utility code.

The development shallowly embeds, in Lean:
  * Keccak-256 as invoked (via the `keccak256` primitive) by the bridge e2e
    tests to build hash locks;
  * the HTLC transfer state machine of the bridge orchestrator;
  * the chain-monitor event-sequence interface and the bounded-deadline wait;
  * the two end-to-end happy-path test scenarios as explicit step traces;
  * `GcCounter` from `util/collections` (decrement / get_count / gc);
  * `Probe` from `benches/howzit`.
-/

namespace Movement

/-! ### Keccak-256 (as used by the e2e tests to compute hash locks) -/

/-- Left rotation of a 64-bit lane value (inputs below `2 ^ 64`). -/
def rotl64 (x n : Nat) : Nat :=
  ((x <<< (n % 64)) ||| (x >>> (64 - n % 64))) % 2 ^ 64

/-- The 25 keccak lanes in row-major order: lane `(x, y)` sits at index `x + 5 * y`. -/
abbrev KState := List Nat

/-- Lane accessor (missing entries read as zero). -/
def lane (A : KState) (i : Nat) : Nat := A.getD i 0

/-- The theta step of keccak-f[1600]. -/
def thetaStep (A : KState) : KState :=
  let C := fun x =>
    lane A x ^^^ lane A (x + 5) ^^^ lane A (x + 10) ^^^ lane A (x + 15) ^^^ lane A (x + 20)
  (List.range 25).map (fun i =>
    lane A i ^^^ C ((i % 5 + 4) % 5) ^^^ rotl64 (C ((i % 5 + 1) % 5)) 1)

/-- Rotation offset of the rho step for the lane at index `x + 5 * y`. -/
def rhoOffset : Nat → Nat
  | 1 => 1
  | 2 => 62
  | 3 => 28
  | 4 => 27
  | 5 => 36
  | 6 => 44
  | 7 => 6
  | 8 => 55
  | 9 => 20
  | 10 => 3
  | 11 => 10
  | 12 => 43
  | 13 => 25
  | 14 => 39
  | 15 => 41
  | 16 => 45
  | 17 => 15
  | 18 => 21
  | 19 => 8
  | 20 => 18
  | 21 => 2
  | 22 => 61
  | 23 => 56
  | 24 => 14
  | _ => 0

/-- The combined rho and pi steps: output lane `(X, Y)` is the rotated input
lane `(x, y)` with `x = (X + 3Y) % 5`, `y = X`. -/
def rhoPiStep (A : KState) : KState :=
  (List.range 25).map (fun i =>
    let j := (i % 5 + 3 * (i / 5)) % 5 + 5 * (i % 5)
    rotl64 (lane A j) (rhoOffset j))

/-- The chi step. -/
def chiStep (A : KState) : KState :=
  (List.range 25).map (fun i =>
    let x := i % 5
    let y := i / 5
    lane A i ^^^ ((lane A ((x + 1) % 5 + 5 * y) ^^^ (2 ^ 64 - 1)) &&& lane A ((x + 2) % 5 + 5 * y)))

/-- The 24 round constants of keccak-f[1600], written in decimal. -/
def roundConstants : List Nat :=
  [1,
   32898,
   9223372036854808714,
   9223372039002292224,
   32907,
   2147483649,
   9223372039002292353,
   9223372036854808585,
   138,
   136,
   2147516425,
   2147483658,
   2147516555,
   9223372036854775947,
   9223372036854808713,
   9223372036854808579,
   9223372036854808578,
   9223372036854775936,
   32778,
   9223372039002259466,
   9223372039002292353,
   9223372036854808704,
   2147483649,
   9223372039002292232]

/-- The iota step: xor the round constant into lane `(0, 0)`. -/
def iotaStep (A : KState) (rc : Nat) : KState :=
  match A with
  | [] => []
  | a0 :: rest => (a0 ^^^ rc) :: rest

/-- The keccak-f[1600] permutation: 24 rounds of theta, rho-pi, chi, iota. -/
def keccakF (A : KState) : KState :=
  roundConstants.foldl (fun A rc => iotaStep (chiStep (rhoPiStep (thetaStep A))) rc) A

/-- Little-endian interpretation of a byte list as a lane value. -/
def leLane (bs : List Nat) : Nat := bs.foldr (fun b acc => acc * 256 + b) 0

/-- Xor one 136-byte rate block into the first 17 lanes of the state. -/
def xorBlock (A : KState) (block : List Nat) : KState :=
  (List.range 25).map (fun i =>
    if i < 17 then lane A i ^^^ leLane ((block.drop (8 * i)).take 8) else lane A i)

/-- Keccak (pre-SHA3) multi-rate padding for rate 136: `0x01 0x00* 0x80`,
collapsing to the single byte `0x81` when only one padding byte fits. -/
def keccakPad (len : Nat) : List Nat :=
  let padLen := 136 - len % 136
  if padLen = 1 then [129]
  else [1] ++ List.replicate (padLen - 2) 0 ++ [128]

/-- Absorb `n` rate blocks of a padded message (whose length is `136 * n`),
136-byte block by 136-byte block. -/
def absorbBlocks : Nat → KState → List Nat → KState
  | 0, A, _ => A
  | n + 1, A, bs => absorbBlocks n (keccakF (xorBlock A (bs.take 136))) (bs.drop 136)

/-- The `n` least-significant bytes of a lane, little-endian. -/
def leBytes : Nat → Nat → List Nat
  | 0, _ => []
  | n + 1, x => x % 256 :: leBytes n (x / 256)

/-- Keccak-256 of a byte string: absorb the padded message and squeeze the
first 32 bytes (lanes 0 to 3) of the final state. -/
def keccak256 (msg : List Nat) : List Nat :=
  let padded := msg ++ keccakPad msg.length
  let A := absorbBlocks (padded.length / 136) (List.replicate 25 0) padded
  leBytes 8 (lane A 0) ++ leBytes 8 (lane A 1) ++ leBytes 8 (lane A 2) ++ leBytes 8 (lane A 3)

/-- The hash lock computed at initiation in both e2e tests:
`let hash_lock = HashLock(From::from(keccak256(hash_lock_pre_image)))`. -/
def hashLockFor (preimage : List Nat) : List Nat := keccak256 preimage

/-- Modelled from the spec: `verify(lock, preimage) -> bool` of the HashLock
primitive (the `bridge_service` crate implementing it is not among the
sources): true iff `lock_for(preimage) == lock`. -/
def verify (lock preimage : List Nat) : Bool := hashLockFor preimage == lock

/-! ### Transfer state machine (spec section 4.3) -/

/-- Modelled from the spec: the lifecycle states of a transfer record
(the orchestrator crate is not among the sources). -/
inductive TransferState
  | initiated
  | locked
  | initiatorCompleted
  | counterPartCompleted
  | bothCompleted
  | refunded
  | cancelled
deriving DecidableEq

/-- Bridge contract events, with the variant set of the spec's data model and
the constructor spelling observed in the e2e tests
(`BridgeContractEvent::InitialtorCompleted`). Each carries its transfer id;
the counterparty completion also carries the revealed preimage. -/
inductive BridgeContractEvent
  | locked (bridge_transfer_id : Nat)
  | initialtorCompleted (bridge_transfer_id : Nat)
  | counterPartCompleted (bridge_transfer_id : Nat) (preimage : List Nat)
  | refunded (bridge_transfer_id : Nat)
  | cancelled (bridge_transfer_id : Nat)
deriving DecidableEq

/-- Modelled from the spec: one transition of the per-record state machine of
section 4.3 on an observed event. Events not enabled in the current state
(duplicates, redeliveries) are idempotent no-ops; `Refunded` is reachable
only from `Locked`; `BothCompleted` and `Refunded` are terminal. -/
def step (s : TransferState) (e : BridgeContractEvent) : TransferState :=
  match s, e with
  | .initiated, .locked _ => .locked
  | .initiated, .cancelled _ => .cancelled
  | .locked, .cancelled _ => .cancelled
  | .locked, .initialtorCompleted _ => .initiatorCompleted
  | .locked, .counterPartCompleted _ _ => .counterPartCompleted
  | .initiatorCompleted, .counterPartCompleted _ _ => .bothCompleted
  | .counterPartCompleted, .initialtorCompleted _ => .bothCompleted
  | .locked, .refunded _ => .refunded
  | s, _ => s

/-- Run the record state machine over a sequence of observed events. -/
def run (s : TransferState) (events : List BridgeContractEvent) : TransferState :=
  events.foldl step s

/-- States in which some completion action has been issued/recorded. -/
def hasCompleted : TransferState → Bool
  | .initiatorCompleted => true
  | .counterPartCompleted => true
  | .bothCompleted => true
  | _ => false

/-! ### Chain monitor interface (spec section 4.2) -/

/-- Modelled from the spec: monitor failure kinds (section 7). -/
inductive MonitorError
  | chainRpcFailure
  | monitorExhausted
deriving DecidableEq

/-- Modelled from the spec: a chain monitor presents the chain's event feed as
a lazy sequence of yielded items; we model the observable remainder of that
sequence as a list. -/
abbrev ChainMonitor := List (Except MonitorError BridgeContractEvent)

/-- Next operation of a monitor: the next yielded item together with the rest
of the sequence, or `none` when the sequence has ended. -/
def ChainMonitor.next :
    ChainMonitor → Option (Except MonitorError BridgeContractEvent × ChainMonitor)
  | [] => none
  | it :: rest => some (it, rest)

/-- Relation holding when a list is an order-preserving merge of two lists:
the observable arrival orders of two independent monitors. -/
inductive Interleaves {α : Type} : List α → List α → List α → Prop
  | nil : Interleaves [] [] []
  | left {x : α} {xs ys zs : List α} :
      Interleaves xs ys zs → Interleaves (x :: xs) ys (x :: zs)
  | right {y : α} {xs ys zs : List α} :
      Interleaves xs ys zs → Interleaves xs (y :: ys) (y :: zs)

/-- Which chain an item came from, for statements about cross-chain order. -/
inductive Chain
  | eth
  | mvt
deriving DecidableEq

/-- Modelled from the spec: a bounded wait for the next monitor event with an
explicit deadline (`tokio::time::timeout(Duration::from_secs(30), m.next())`
in the tests). Each pending item carries its arrival time. When the deadline
elapses first, the caller receives a timeout error and the monitor is
returned unchanged: it keeps running and can deliver the same item to a
later wait. -/
def timeoutNext (deadline : Nat)
    (m : List (Nat × Except MonitorError BridgeContractEvent)) :
    Except Unit (Option (Except MonitorError BridgeContractEvent))
      × List (Nat × Except MonitorError BridgeContractEvent) :=
  match m with
  | [] => (.ok none, [])
  | (t, it) :: rest =>
    if t ≤ deadline then (.ok (some it), rest) else (.error (), (t, it) :: rest)

/-! ### The two e2e happy-path scenarios, as explicit step traces -/

/-- Kinds of bridge events a scenario waits for. -/
inductive EventKind
  | locked
  | initialtorCompleted
  | counterPartCompleted
  | refunded
  | cancelled
deriving DecidableEq

/-- A bridge-relevant step performed by one of the e2e tests. -/
inductive ScenarioStep
  | setTimelock (secs : Nat)
  | fundSigner (chain : Chain) (amount : Nat)
  | fundRecipient
  | mintRecipient (amount : Nat)
  | initiateEthTransfer (ethAmount wethAmount : Nat)
  | initiateMvtTransfer (amount : Nat)
  | awaitEvent (chain : Chain) (deadlineSecs : Nat) (kind : EventKind)
  | completeOnChain (chain : Chain) (correctPreimage : Bool)
  | assertSameId
deriving DecidableEq

/-- The steps of `test_bridge_transfer_eth_movement_happy_path`: fund the
accounts, initiate on ETH with `Amount(AssetType::EthAndWeth((1, 0)))`, wait
(30s) for the `Locked` event on the Movement monitor and bind its
`bridge_transfer_id`, complete on Movement with the original preimage, then
loop waiting (30s per wait) for `InitialtorCompleted` on the ETH monitor. -/
def ethMovementSteps : List ScenarioStep :=
  [.fundSigner .mvt 100000000,
   .fundRecipient,
   .initiateEthTransfer 1 0,
   .awaitEvent .mvt 30 .locked,
   .completeOnChain .mvt true,
   .awaitEvent .eth 30 .initialtorCompleted]

/-- The steps of `test_bridge_transfer_movement_eth_happy_path`: set the
time-lock to 60 seconds, fund the accounts, mint 1 moveeth to the recipient,
initiate on Movement with amount 1, loop waiting (30s per wait) for `Locked`
on the ETH monitor, complete on ETH with the original preimage, then loop
waiting for `CounterPartCompleted` on the ETH monitor and assert its id
equals the one bound at the `Locked` event. -/
def movementEthSteps : List ScenarioStep :=
  [.setTimelock 60,
   .fundSigner .mvt 100000000000,
   .fundRecipient,
   .mintRecipient 1,
   .initiateMvtTransfer 1,
   .awaitEvent .eth 30 .locked,
   .completeOnChain .eth true,
   .awaitEvent .eth 30 .counterPartCompleted,
   .assertSameId]

/-- Whether a step is a wait for event kind `k` on chain `c`. -/
def ScenarioStep.isAwait (c : Chain) (k : EventKind) : ScenarioStep → Bool
  | .awaitEvent c' _ k' => c' == c && k' == k
  | _ => false

/-- A scenario observes event kind `k` on chain `c` somewhere. -/
def observes (steps : List ScenarioStep) (c : Chain) (k : EventKind) : Bool :=
  steps.any (ScenarioStep.isAwait c k)

/-- A wait for `k1` on `c1` occurs strictly before a wait for `k2` on `c2`. -/
def observesBefore : List ScenarioStep → Chain → EventKind → Chain → EventKind → Bool
  | [], _, _, _, _ => false
  | s :: rest, c1, k1, c2, k2 =>
    (s.isAwait c1 k1 && observes rest c2 k2) || observesBefore rest c1 k1 c2 k2

/-- The steps after the first step satisfying `p` (empty if none does). -/
def afterFirst (p : ScenarioStep → Bool) : List ScenarioStep → List ScenarioStep
  | [] => []
  | s :: rest => if p s then rest else afterFirst p rest

/-- A wait for `k` on `c` immediately followed by the id-equality assertion. -/
def awaitThenAssert (c : Chain) (k : EventKind) : List ScenarioStep → Bool
  | [] => false
  | [_] => false
  | s :: s' :: rest =>
    (s.isAwait c k && (s' == ScenarioStep.assertSameId)) || awaitThenAssert c k (s' :: rest)

/-- True iff, on chain `c`, a `Locked` wait occurs before any completion is
issued (scanning the steps, the first of either is the `Locked` wait). -/
def locksBeforeComplete : List ScenarioStep → Chain → Bool
  | [], _ => false
  | .completeOnChain _ _ :: _, _ => false
  | .awaitEvent c' _ .locked :: rest, c => c' == c || locksBeforeComplete rest c
  | _ :: rest, c => locksBeforeComplete rest c

/-- The state-machine event corresponding to an awaited event kind. -/
def EventKind.toEvent : EventKind → BridgeContractEvent
  | .locked => .locked 0
  | .initialtorCompleted => .initialtorCompleted 0
  | .counterPartCompleted => .counterPartCompleted 0 []
  | .refunded => .refunded 0
  | .cancelled => .cancelled 0

/-- The events a scenario observes, in order. -/
def observedEvents (steps : List ScenarioStep) : List BridgeContractEvent :=
  steps.filterMap (fun s =>
    match s with
    | .awaitEvent _ _ k => some k.toEvent
    | _ => none)

/-- The transfer record state after applying the events a scenario observed. -/
def recordAfter (steps : List ScenarioStep) : TransferState :=
  run .initiated (observedEvents steps)

/-- Claim C4 as stated, over the embedded ETH→Movement scenario: initiation
with the (1, 0) pair, `Locked` observed on Movement, completion on Movement
with the correct preimage, then `CounterPartCompleted` observed on chain B
before `InitialtorCompleted` on chain A, the record reaching `BothCompleted`. -/
def claimC4Stated : Prop :=
  ethMovementSteps.contains (.initiateEthTransfer 1 0) = true
  ∧ observes ethMovementSteps .mvt .locked = true
  ∧ ethMovementSteps.contains (.completeOnChain .mvt true) = true
  ∧ observesBefore ethMovementSteps .mvt .counterPartCompleted .eth .initialtorCompleted = true
  ∧ recordAfter ethMovementSteps = .bothCompleted

/-- Claim C5 as stated, over the embedded Movement→ETH scenario: time-lock 60,
recipient minted, amount 1, `Locked` observed on the counter side before any
completion, completion followed by a `CounterPartCompleted` wait whose id is
asserted equal, the record reaching `BothCompleted`. -/
def claimC5Stated : Prop :=
  movementEthSteps.contains (.setTimelock 60) = true
  ∧ movementEthSteps.contains (.mintRecipient 1) = true
  ∧ movementEthSteps.contains (.initiateMvtTransfer 1) = true
  ∧ locksBeforeComplete movementEthSteps .eth = true
  ∧ awaitThenAssert .eth .counterPartCompleted
      (afterFirst (· == .completeOnChain .eth true) movementEthSteps) = true
  ∧ recordAfter movementEthSteps = .bothCompleted

/-! ### GcCounter (`util/collections/src/garbage/atomic/counted.rs`) -/

/-- The `GcCounter` state: `value_lifetimes` is the ring buffer of
(slot timestamp, count) pairs, rendered sequentially. -/
structure GcCounter where
  value_ttl : Nat
  gc_slot_duration : Nat
  value_lifetimes : List (Nat × Nat)
  num_slots : Nat
deriving DecidableEq

/-- `GcCounter::new`: `num_slots = value_ttl / gc_slot_duration` zeroed slots. -/
def GcCounter.new (value_ttl gc_slot_duration : Nat) : GcCounter :=
  let num_slots := value_ttl / gc_slot_duration
  ⟨value_ttl, gc_slot_duration, List.replicate num_slots (0, 0), num_slots⟩

/-- The slot loop of `GcCounter::decrement`, sequentially: `fetch_update`
returns `Err` without changing the slot when the closure yields `None`
(count is zero), otherwise stores the new count and returns `Ok`; the loop
then breaks when the result was `Ok` or the remaining amount is zero. -/
def decrementLoop : List (Nat × Nat) → Nat → List (Nat × Nat)
  | [], _ => []
  | (ts, c) :: rest, amount =>
    if c = 0 then
      if amount = 0 then (ts, c) :: rest
      else (ts, c) :: decrementLoop rest amount
    else if amount ≤ c then (ts, c - amount) :: rest
    else (ts, 0) :: rest

/-- `GcCounter::decrement`. -/
def GcCounter.decrement (g : GcCounter) (amount : Nat) : GcCounter :=
  { g with value_lifetimes := decrementLoop g.value_lifetimes amount }

/-- `GcCounter::get_count`: the sum of the per-slot counts. -/
def GcCounter.get_count (g : GcCounter) : Nat :=
  (g.value_lifetimes.map Prod.snd).sum

/-- `GcCounter::gc`: computes `cutoff_time = current_time - value_ttl` with a
`u64` subtraction that fails on underflow (modelled as `none`), then resets
every slot whose stored timestamp is at most the cutoff. -/
def GcCounter.gc (g : GcCounter) (current_time : Nat) : Option GcCounter :=
  if current_time < g.value_ttl then none
  else
    let cutoff_time := current_time - g.value_ttl
    some { g with value_lifetimes :=
      g.value_lifetimes.map (fun p => if p.1 ≤ cutoff_time then (0, 0) else p) }

/-! ### Probe (`benches/howzit/src/howzit.rs`) -/

/-- The probe variants of the howzit benchmark. -/
inductive Probe
  | Probe1
  | Probe2
  | Probe3
deriving DecidableEq

/-- Start of `Probe::PROBE_RANGE = 0..=3`. -/
def PROBE_RANGE_START : Nat := 0

/-- End of `Probe::PROBE_RANGE = 0..=3`. -/
def PROBE_RANGE_END : Nat := 3

/-- Every event wait of a scenario uses the given deadline (in seconds). -/
def allWaitsUseDeadline (steps : List ScenarioStep) (d : Nat) : Bool :=
  steps.all (fun s =>
    match s with
    | .awaitEvent _ d' _ => d' == d
    | _ => true)

/-- The `From<u32> for Probe` conversion: the value is reduced modulo
`PROBE_RANGE.end()` (= 3) and shifted by `PROBE_RANGE.start()` (= 0) before
the match. -/
def Probe.fromU32 (value : Nat) : Probe :=
  match value % PROBE_RANGE_END + PROBE_RANGE_START with
  | 1 => Probe.Probe1
  | 2 => Probe.Probe2
  | 3 => Probe.Probe3
  | _ => Probe.Probe1

/-- `u32::leading_zeros` for values below `2 ^ 32`. -/
def leadingZeros32 (n : Nat) : Nat :=
  if n = 0 then 32 else 31 - Nat.log2 n

/-- `Probe::generate_exponential` given the value the rng drew from
`gen_range(0, 2 ^ PROBE_RANGE.end())`: `inverse = 2 ^ 3 - random`, then
`u32::MAX - inverse.leading_zeros()`, converted through `From<u32>`. -/
def Probe.generateExponential (random : Nat) : Probe :=
  let inverse := 2 ^ PROBE_RANGE_END - random
  let probe := (2 ^ 32 - 1) - leadingZeros32 inverse
  Probe.fromU32 probe

/-! ## Theorems -/

set_option maxRecDepth 10000

theorem leBytes_length (n x : Nat) : (leBytes n x).length = n := by
  induction n generalizing x with
  | zero => rfl
  | succ n ih => simp [leBytes, ih]

theorem keccak256_length (msg : List Nat) : (keccak256 msg).length = 32 := by
  simp [keccak256, leBytes_length]

/-- Sanity anchor for the embedding: the digest of the empty byte string is
the standard keccak-256 value c5d2...a470. -/
theorem keccak256_nil_vector :
    keccak256 [] =
      [0xc5, 0xd2, 0x46, 0x01, 0x86, 0xf7, 0x23, 0x3c, 0x92, 0x7e, 0x7d, 0xb2,
       0xdc, 0xc7, 0x03, 0xc0, 0xe5, 0x00, 0xb6, 0x53, 0xca, 0x82, 0x27, 0x3b,
       0x7b, 0xfa, 0xd8, 0x04, 0x5d, 0x85, 0xa4, 0x70] := by decide

/-- C1: verifying a lock against the preimage it was computed from returns
true, and against any distinct preimage returns false provided the two
digests do not collide (digest collision being the cryptographically
negligible exception the claim allows). -/
theorem C1_verify_roundtrip (p p' : List Nat) (_hne : p' ≠ p)
    (hcoll : keccak256 p' ≠ keccak256 p) :
    verify (hashLockFor p) p = true ∧ verify (hashLockFor p) p' = false := by
  constructor
  · simp [verify, hashLockFor]
  · simp [verify, hashLockFor]
    exact hcoll

/-- Witness for C1 at the preimages [] and [0]. -/
theorem C1_verify_roundtrip_witness :
    verify (hashLockFor []) [] = true ∧ verify (hashLockFor []) [0] = false :=
  C1_verify_roundtrip [] [0] (by decide) (by decide)

/-- C3: the hash lock built at initiation (on both the ETH and the Movement
leg) is exactly the keccak-256 digest of the preimage, a fixed-size 32-byte
digest, and is deterministic: equal preimages give equal locks. -/
theorem C3_hash_lock_is_keccak (p q : List Nat) (h : p = q) :
    hashLockFor p = keccak256 p
  ∧ (hashLockFor p).length = 32
  ∧ hashLockFor p = hashLockFor q :=
  ⟨rfl, keccak256_length p, by rw [h]⟩

/-- Witness for C3 at the empty preimage. -/
theorem C3_hash_lock_is_keccak_witness :
    hashLockFor [] = keccak256 []
  ∧ (hashLockFor []).length = 32
  ∧ hashLockFor [] = hashLockFor [] :=
  C3_hash_lock_is_keccak [] [] rfl

theorem step_refunded_eq (e : BridgeContractEvent) : step .refunded e = .refunded := by
  cases e <;> rfl

theorem run_refunded (l : List BridgeContractEvent) : run .refunded l = .refunded := by
  induction l with
  | nil => rfl
  | cons e l ih =>
    show List.foldl step (step .refunded e) l = .refunded
    rw [step_refunded_eq]
    exact ih

theorem hasCompleted_step {s : TransferState} (e : BridgeContractEvent)
    (h : hasCompleted s = true) : hasCompleted (step s e) = true := by
  cases s <;> cases e <;> simp_all [hasCompleted, step]

theorem hasCompleted_run {s : TransferState} (l : List BridgeContractEvent)
    (h : hasCompleted s = true) : hasCompleted (run s l) = true := by
  induction l generalizing s with
  | nil => exact h
  | cons e l ih => exact ih (hasCompleted_step e h)

theorem run_append (s : TransferState) (l1 l2 : List BridgeContractEvent) :
    run s (l1 ++ l2) = run (run s l1) l2 :=
  List.foldl_append step s l1 l2

theorem run_take_le (events : List BridgeContractEvent) {i j : Nat} (hij : i ≤ j)
    (s : TransferState) :
    run s (events.take j) = run (run s (events.take i)) ((events.take j).drop i) := by
  conv_lhs => rw [← List.take_append_drop i (events.take j)]
  rw [run_append, List.take_take, Nat.min_eq_left hij]

/-- C2: the record state machine never visits both terminal states
`BothCompleted` and `Refunded` along one event history; once any completion
has been recorded the record is never `Refunded` later; and the `Refunded`
transition is enabled only in state `Locked` — the ordering is enforced by
the record's state alone. -/
theorem C2_terminal_exclusion (events : List BridgeContractEvent) (i j : Nat) :
    ¬(run .initiated (events.take i) = .bothCompleted
        ∧ run .initiated (events.take j) = .refunded)
  ∧ (i ≤ j → hasCompleted (run .initiated (events.take i)) = true →
      run .initiated (events.take j) ≠ .refunded)
  ∧ (∀ s e, step s e = .refunded → s = .locked ∨ s = .refunded) := by
  have key : ∀ {a b : Nat}, a ≤ b →
      hasCompleted (run .initiated (events.take a)) = true →
      run .initiated (events.take b) ≠ .refunded := by
    intro a b hab hc hr
    have hcb : hasCompleted (run .initiated (events.take b)) = true := by
      rw [run_take_le events hab .initiated]
      exact hasCompleted_run _ hc
    rw [hr] at hcb
    exact absurd hcb (by decide)
  refine ⟨?_, fun hij => key hij, ?_⟩
  · rintro ⟨hb, hr⟩
    rcases le_total i j with hij | hji
    · exact key hij (by rw [hb]; rfl) hr
    · have hri : run .initiated (events.take i) = .refunded := by
        rw [run_take_le events hji .initiated, hr, run_refunded]
      rw [hri] at hb
      exact absurd hb (by decide)
  · intro s e hse
    cases s <;> cases e <;> simp_all [step]

/-- Witness for C2: after a locked, counterparty-completed, initiator-completed
history the record is not refunded. -/
theorem C2_terminal_exclusion_witness :
    run .initiated ([BridgeContractEvent.locked 1,
      BridgeContractEvent.counterPartCompleted 1 [],
      BridgeContractEvent.initialtorCompleted 1].take 3) ≠ .refunded :=
  (C2_terminal_exclusion [BridgeContractEvent.locked 1,
      BridgeContractEvent.counterPartCompleted 1 [],
      BridgeContractEvent.initialtorCompleted 1] 3 3).2.1 (le_refl 3) (by decide)

/-- C6: a monitor's next() yields `none` exactly at the end of the sequence;
every yielded item is either an `ok` typed bridge event or an `error`; and
two independent monitors admit distinct relative arrival orders, so no
cross-chain ordering is guaranteed. -/
theorem C6_monitor_contract (m : ChainMonitor) :
    (ChainMonitor.next m = none ↔ m = [])
  ∧ (∀ it rest, ChainMonitor.next m = some (it, rest) →
      (∃ e, it = Except.ok e) ∨ (∃ err, it = Except.error err))
  ∧ (∃ zs ws : List (Chain × BridgeContractEvent),
      Interleaves [(Chain.eth, BridgeContractEvent.locked 1)]
        [(Chain.mvt, BridgeContractEvent.locked 2)] zs
      ∧ Interleaves [(Chain.eth, BridgeContractEvent.locked 1)]
        [(Chain.mvt, BridgeContractEvent.locked 2)] ws
      ∧ zs ≠ ws) := by
  refine ⟨?_, ?_, ?_⟩
  · cases m <;> simp [ChainMonitor.next]
  · intro it rest _
    cases it with
    | ok e => exact Or.inl ⟨e, rfl⟩
    | error err => exact Or.inr ⟨err, rfl⟩
  · exact ⟨[(Chain.eth, .locked 1), (Chain.mvt, .locked 2)],
      [(Chain.mvt, .locked 2), (Chain.eth, .locked 1)],
      .left (.right .nil), .right (.left .nil), by decide⟩

/-- Witness for C6 on a one-item monitor. -/
theorem C6_monitor_contract_witness :
    (∃ e, (Except.ok (BridgeContractEvent.locked 1) :
        Except MonitorError BridgeContractEvent) = Except.ok e)
  ∨ (∃ err, (Except.ok (BridgeContractEvent.locked 1) :
        Except MonitorError BridgeContractEvent) = Except.error err) :=
  (C6_monitor_contract [Except.ok (BridgeContractEvent.locked 1)]).2.1 _ [] rfl

/-- C7: every wait on a monitor in the two scenarios carries the explicit
30-second deadline; a wait whose deadline elapses before the next item's
arrival returns a timeout error and leaves the monitor unchanged (it keeps
running); a wait whose item arrives in time receives the item. -/
theorem C7_bounded_deadline (deadline t : Nat)
    (it : Except MonitorError BridgeContractEvent)
    (rest : List (Nat × Except MonitorError BridgeContractEvent)) :
    (allWaitsUseDeadline ethMovementSteps 30 = true
      ∧ allWaitsUseDeadline movementEthSteps 30 = true)
  ∧ (deadline < t →
      timeoutNext deadline ((t, it) :: rest) = (Except.error (), (t, it) :: rest))
  ∧ (t ≤ deadline →
      timeoutNext deadline ((t, it) :: rest) = (Except.ok (some it), rest)) := by
  refine ⟨by decide, ?_, ?_⟩
  · intro hlt
    simp [timeoutNext, Nat.not_le.mpr hlt]
  · intro hle
    simp [timeoutNext, hle]

/-- Witness for C7: a 30-second wait for an item arriving at 31 times out and
leaves the item pending. -/
theorem C7_bounded_deadline_witness :
    timeoutNext 30 [(31, (Except.ok (BridgeContractEvent.locked 1) :
        Except MonitorError BridgeContractEvent))]
      = (Except.error (), [(31, Except.ok (BridgeContractEvent.locked 1))]) :=
  (C7_bounded_deadline 30 31 (Except.ok (BridgeContractEvent.locked 1)) []).2.1
    (by decide)

/-- C4 counterexample: the claim as stated is false on the embedded
ETH→Movement test trace — the run never waits for a `CounterPartCompleted`
event on chain B before the `InitialtorCompleted` wait, and the record
derived from the observed events does not reach `BothCompleted`. -/
theorem C4_stated_false : ¬ claimC4Stated := by
  intro h
  exact absurd h.2.2.2.1 (by decide)

/-- C4 (amended): in the embedded ETH→Movement happy path, initiation on
chain A uses the native+wrapped pair (1, 0); the Movement monitor observes a
`Locked` event; the counterparty completes on chain B with the correct
preimage; the run then observes `InitialtorCompleted` on chain A after the
`Locked` observation; no `CounterPartCompleted` event is awaited on either
chain, and the record derived from the observed events reaches
`InitiatorCompleted`, not `BothCompleted`. -/
theorem C4_amended_trace :
    ethMovementSteps.contains (.initiateEthTransfer 1 0) = true
  ∧ observes ethMovementSteps .mvt .locked = true
  ∧ ethMovementSteps.contains (.completeOnChain .mvt true) = true
  ∧ observesBefore ethMovementSteps .mvt .locked .eth .initialtorCompleted = true
  ∧ observes ethMovementSteps .eth .counterPartCompleted = false
  ∧ observes ethMovementSteps .mvt .counterPartCompleted = false
  ∧ recordAfter ethMovementSteps = .initiatorCompleted := by decide

/-- C5 counterexample: the claim as stated is false on the embedded
Movement→ETH test trace — the record derived from the observed events stays
at `CounterPartCompleted`; no `BothCompleted` state is reached or checked. -/
theorem C5_stated_false : ¬ claimC5Stated := by
  intro h
  exact absurd h.2.2.2.2.2 (by decide)

/-- C5 (amended): in the embedded Movement→ETH happy path, the time-lock is
set to 60 seconds, the recipient is minted 1 unit, the transfer is initiated
with amount 1, a `Locked` event is observed on chain B before any completion
is issued, and the completion is followed by a `CounterPartCompleted` wait
whose transfer id is asserted equal to the one observed at `Locked`; the
record derived from the observed events reaches `CounterPartCompleted`, not
`BothCompleted`. -/
theorem C5_amended_trace :
    movementEthSteps.contains (.setTimelock 60) = true
  ∧ movementEthSteps.contains (.mintRecipient 1) = true
  ∧ movementEthSteps.contains (.initiateMvtTransfer 1) = true
  ∧ locksBeforeComplete movementEthSteps .eth = true
  ∧ awaitThenAssert .eth .counterPartCompleted
      (afterFirst (· == .completeOnChain .eth true) movementEthSteps) = true
  ∧ recordAfter movementEthSteps = .counterPartCompleted := by decide

/-- C8: evaluation of `GcCounter::decrement` at the failing input — with slot
counts [1, 1], decrementing 2 leaves a total of 1 rather than the claimed
`total - min(amount, total) = 0`: the loop breaks as soon as one slot update
succeeds, so the remainder announced by the code's own carry comment is
never subtracted from the next slot. -/
theorem C8_decrement_drops_carry :
    (GcCounter.decrement ⟨100, 50, [(0, 1), (1, 1)], 2⟩ 2).get_count = 1
  ∧ GcCounter.get_count ⟨100, 50, [(0, 1), (1, 1)], 2⟩ = 2
  ∧ (1 : Nat) ≠ 2 - min 2 2 := by decide

/-- C9 counterexample: with `value_ttl = 100`, `gc(49)` underflows the u64
cutoff subtraction `current_time - value_ttl` and is not well-defined. -/
theorem C9_gc_underflow : (GcCounter.new 100 10).gc 49 = none := by decide

/-- C9 (amended): whenever `current_time ≥ value_ttl`, `gc` is well-defined,
keeps the slot count, zeroes (timestamp and count) every slot whose stored
timestamp is at most `current_time - value_ttl`, and leaves slots with newer
timestamps unchanged. -/
theorem C9_gc_zeroes_expired (g : GcCounter) (current_time : Nat)
    (h : g.value_ttl ≤ current_time) :
    ∃ g', g.gc current_time = some g'
      ∧ g'.value_lifetimes.length = g.value_lifetimes.length
      ∧ ∀ i : Nat,
          ((g.value_lifetimes.getD i (0, 0)).1 ≤ current_time - g.value_ttl →
            g'.value_lifetimes.getD i (0, 0) = (0, 0))
        ∧ (¬(g.value_lifetimes.getD i (0, 0)).1 ≤ current_time - g.value_ttl →
            g'.value_lifetimes.getD i (0, 0) = g.value_lifetimes.getD i (0, 0)) := by
  refine ⟨{ g with value_lifetimes := g.value_lifetimes.map (fun p => if p.1 ≤ current_time - g.value_ttl then (0, 0) else p) }, ?_, ?_, ?_⟩
  · simp [GcCounter.gc, Nat.not_lt.mpr h]
  · simp
  · intro i
    constructor <;> intro hi
    · simp only [List.getD_eq_getElem?_getD, List.getElem?_map]
      cases hx : g.value_lifetimes[i]? with
      | none => simp
      | some p =>
        rw [List.getD_eq_getElem?_getD, hx] at hi
        simp only [Option.getD_some] at hi
        simp [hi]
    · simp only [List.getD_eq_getElem?_getD, List.getElem?_map]
      cases hx : g.value_lifetimes[i]? with
      | none => simp
      | some p =>
        rw [List.getD_eq_getElem?_getD, hx] at hi
        simp only [Option.getD_some] at hi
        simp [hi]

/-- Witness for C9 at a concrete two-slot counter garbage-collected at time
100: the slot stamped 0 expires, the slot stamped 2 survives. -/
theorem C9_gc_zeroes_expired_witness :
    ∃ g', GcCounter.gc ⟨100, 50, [(0, 5), (2, 7)], 2⟩ 100 = some g'
      ∧ g'.value_lifetimes.length =
          (GcCounter.mk 100 50 [(0, 5), (2, 7)] 2).value_lifetimes.length
      ∧ ∀ i : Nat,
          (((GcCounter.mk 100 50 [(0, 5), (2, 7)] 2).value_lifetimes.getD i (0, 0)).1
              ≤ 100 - (GcCounter.mk 100 50 [(0, 5), (2, 7)] 2).value_ttl →
            g'.value_lifetimes.getD i (0, 0) = (0, 0))
        ∧ (¬((GcCounter.mk 100 50 [(0, 5), (2, 7)] 2).value_lifetimes.getD i (0, 0)).1
              ≤ 100 - (GcCounter.mk 100 50 [(0, 5), (2, 7)] 2).value_ttl →
            g'.value_lifetimes.getD i (0, 0) =
              (GcCounter.mk 100 50 [(0, 5), (2, 7)] 2).value_lifetimes.getD i (0, 0)) :=
  C9_gc_zeroes_expired (GcCounter.mk 100 50 [(0, 5), (2, 7)] 2) 100 (by decide)

theorem Probe.fromU32_cases (value : Nat) :
    Probe.fromU32 value = Probe.Probe1 ∨ Probe.fromU32 value = Probe.Probe2 := by
  have h : value % 3 = 0 ∨ value % 3 = 1 ∨ value % 3 = 2 := by omega
  rcases h with h | h | h <;>
    simp [Probe.fromU32, PROBE_RANGE_END, PROBE_RANGE_START, h]

/-- C10: the `From<u32>` conversion only ever returns `Probe1` or `Probe2`
(the reduction modulo the range end 3 makes the arm for 3 unreachable), so
`generate_exponential` never yields `Probe3` for any value the rng can draw
from `gen_range(0, 2^3)`. -/
theorem C10_probe_never_three (value random : Nat)
    (_h : random < 2 ^ PROBE_RANGE_END) :
    (Probe.fromU32 value = Probe.Probe1 ∨ Probe.fromU32 value = Probe.Probe2)
  ∧ Probe.generateExponential random ≠ Probe.Probe3 := by
  refine ⟨Probe.fromU32_cases value, ?_⟩
  show Probe.fromU32 ((2 ^ 32 - 1) - leadingZeros32 (2 ^ PROBE_RANGE_END - random))
      ≠ Probe.Probe3
  rcases Probe.fromU32_cases
      ((2 ^ 32 - 1) - leadingZeros32 (2 ^ PROBE_RANGE_END - random)) with h1 | h1 <;>
    rw [h1] <;> decide

/-- Witness for C10 at value 5 and the random draw 0. -/
theorem C10_probe_never_three_witness :
    (Probe.fromU32 5 = Probe.Probe1 ∨ Probe.fromU32 5 = Probe.Probe2)
  ∧ Probe.generateExponential 0 ≠ Probe.Probe3 :=
  C10_probe_never_three 5 0 (by decide)

end Movement
